import Mathlib

/-!
Shallow embedding of `src/persistence/sql_provider.go` (package `persistence`
of the flow repository): a SQL-backed event/snapshot persistence provider.

Modelling conventions:
* Protobuf messages are an abstract type `M`; the codec (proto registry,
  `proto.MessageName`, `proto.Marshal`, `proto.Unmarshal`) is a `Codec M`
  record, so that `extractData` mirrors the Go function's control flow.
* The database is a pure value `DB`: a list of `events` rows and a list of
  `snapshots` rows, mirroring the two `CREATE TABLE` statements.
* SQLite semantics of `INSERT OR REPLACE`: rows conflicting with a UNIQUE or
  PRIMARY KEY constraint of the target table are deleted, then the new row is
  inserted.  The `events` DDL declares no such constraint, so no two event
  rows ever conflict; the `snapshots` DDL declares `actor_name ... PRIMARY
  KEY`, so snapshot rows conflict exactly when they share `actor_name`.
* Driver-level failures (query errors, row-scan errors, cursor errors) and
  environment effects (mkdir, open, ping, Exec) are injected as explicit
  fault/effect parameters, since the Go code observes them only as `error`
  values.
* Go `panic` is modelled as an explicit aborted outcome carrying the
  callbacks already delivered before the abort.
-/

/-- A row of the `events` table: `actor_name, event_type, event_index, event`. -/
structure EventRow where
  actor_name : String
  event_type : String
  event_index : Int
  event : List Nat
deriving DecidableEq

/-- A row of the `snapshots` table:
`actor_name, snapshot_type, event_index, snapshot`. -/
structure SnapshotRow where
  actor_name : String
  snapshot_type : String
  event_index : Int
  snapshot : List Nat
deriving DecidableEq

/-- The database state owned by a provider: both tables. -/
structure DB where
  events : List EventRow
  snapshots : List SnapshotRow
deriving DecidableEq

/-- The empty database produced by schema bootstrap. -/
def emptyDB : DB := { events := [], snapshots := [] }

/-- The protobuf codec as the Go code uses it: `messageName` is
`proto.MessageName`, `marshal` is `proto.Marshal` (total: the Go code panics
on a marshal error and the spec says encoding never fails for well-formed
messages), `registered` is `proto.MessageType t != nil`, and `unmarshal t b`
is allocation via the registry followed by `proto.Unmarshal` (`none` on a
parse failure). -/
structure Codec (M : Type) where
  messageName : M → String
  marshal : M → List Nat
  registered : String → Bool
  unmarshal : String → List Nat → Option M

/-- Embedding of `extractData(actorName, msgTypeName, msgBytes)`:
`proto.MessageType` lookup, then `proto.Unmarshal`; an unregistered type tag
or a parse failure is an error. -/
def extractData {M : Type} (codec : Codec M) (_actorName : String)
    (msgTypeName : String) (msgBytes : List Nat) : Except String M :=
  if codec.registered msgTypeName then
    match codec.unmarshal msgTypeName msgBytes with
    | some m => Except.ok m
    | none => Except.error "proto.Unmarshal failed"
  else
    Except.error ("Unsupported protocol type " ++ msgTypeName)

/-- The two DDL statements of `var tables`, verbatim from the source. -/
def tables : List String :=
  ["CREATE TABLE IF NOT EXISTS events (\n\tactor_name varchar(255) NOT NULL,\n\tevent_type varchar(255) NOT NULL,\n\tevent_index int NOT NULL,\n\tevent BLOB NOT NULL);",
   "CREATE TABLE IF NOT EXISTS snapshots (\n\tactor_name varchar(255) NOT NULL PRIMARY KEY ,\n\tsnapshot_type varchar(255) NOT NULL,\n\tevent_index int NOT NULL,\n\tsnapshot BLOB NOT NULL);"]

/-- SQLite `INSERT OR REPLACE`: delete every stored row that conflicts with
the incoming row under the table's uniqueness constraints, then insert. -/
def insertOrReplace {α : Type} (conflict : α → α → Bool) (t : List α) (r : α) :
    List α :=
  t.filter (fun x => !(conflict x r)) ++ [r]

/-- Conflict relation of the `events` table.  Its DDL declares no PRIMARY KEY
and no UNIQUE constraint, so under SQLite semantics no two rows conflict and
`INSERT OR REPLACE` behaves as a plain insert. -/
def eventsConflict (_x _y : EventRow) : Bool := false

/-- Conflict relation of the `snapshots` table.  Its DDL declares
`actor_name ... PRIMARY KEY`, so rows conflict exactly when they share
`actor_name`. -/
def snapshotsConflict (x y : SnapshotRow) : Bool := x.actor_name == y.actor_name

/-- Embedding of `PersistEvent(actorName, eventIndex, event)`:
`proto.MessageName` + `proto.Marshal`, then
`INSERT OR REPLACE INTO events (actor_name,event_type,event_index,event)`. -/
def PersistEvent {M : Type} (codec : Codec M) (db : DB) (actorName : String)
    (eventIndex : Int) (event : M) : DB :=
  { db with
    events := insertOrReplace eventsConflict db.events
      { actor_name := actorName
        event_type := codec.messageName event
        event_index := eventIndex
        event := codec.marshal event } }

/-- Embedding of `PersistSnapshot(actorName, eventIndex, snapshot)`:
`proto.MessageName` + `proto.Marshal`, then
`INSERT OR REPLACE INTO snapshots (actor_name,snapshot_type,event_index,snapshot)`. -/
def PersistSnapshot {M : Type} (codec : Codec M) (db : DB) (actorName : String)
    (eventIndex : Int) (snapshot : M) : DB :=
  { db with
    snapshots := insertOrReplace snapshotsConflict db.snapshots
      { actor_name := actorName
        snapshot_type := codec.messageName snapshot
        event_index := eventIndex
        snapshot := codec.marshal snapshot } }

/-- Driver-level faults a `QueryRowx` + `Scan` round can exhibit:
`queryErr` is `row.Err() != nil`, `scanErr` is a `Scan` failure other than
`sql.ErrNoRows` on an existing row. -/
inductive SnapFault where
  | noFault
  | queryErr
  | scanErr
deriving DecidableEq

/-- Embedding of `GetSnapshot(actorName)`, returning
`(snapshot, eventIndex, ok)`.  Control flow mirrors the source: `row.Err()`
check, `Scan` (with `sql.ErrNoRows` when no row matches the
`WHERE actor_name = ?` query), then `extractData`; every failure path
returns `(nil, -1, false)`. -/
def GetSnapshot {M : Type} (codec : Codec M) (fault : SnapFault) (db : DB)
    (actorName : String) : Option M × Int × Bool :=
  if fault = SnapFault.queryErr then (none, -1, false)
  else
    match (db.snapshots.filter (fun r => r.actor_name == actorName)).head? with
    | none => (none, -1, false)
    | some row =>
      if fault = SnapFault.scanErr then (none, -1, false)
      else
        match extractData codec actorName row.snapshot_type row.snapshot with
        | Except.error _ => (none, -1, false)
        | Except.ok m => (some m, row.event_index, true)

/-- The row-ordering relation of `ORDER BY event_index ASC`. -/
def rowLe (x y : EventRow) : Prop := x.event_index ≤ y.event_index

instance : DecidableRel rowLe := fun x y => Int.decLe x.event_index y.event_index

instance : IsTotal EventRow rowLe :=
  ⟨fun x y => Int.le_total x.event_index y.event_index⟩

instance : IsTrans EventRow rowLe :=
  ⟨fun _ _ _ h1 h2 => Int.le_trans h1 h2⟩

/-- The `WHERE actor_name = ? AND event_index >= ?` predicate of `GetEvents`. -/
def matchesQuery (actorName : String) (eventIndexStart : Int) (r : EventRow) :
    Bool :=
  r.actor_name == actorName && eventIndexStart ≤ r.event_index

/-- The row list produced by the `GetEvents` SELECT: the matching rows of the
`events` table, ordered ascending by `event_index`. -/
def selectEvents (db : DB) (actorName : String) (eventIndexStart : Int) :
    List EventRow :=
  List.insertionSort rowLe (db.events.filter (matchesQuery actorName eventIndexStart))

/-- Driver-level faults of a `Queryx` iteration: `queryErr` is the initial
query failing, `scanErr i` is `rows.Scan` failing on the i-th row (the Go
code ignores its return value, leaving the freshly declared destination
variables at their zero values), and `cursorErrAt = some k` is the cursor
erroring before the k-th row, which makes `rows.Next()` return `false`
(the Go code never checks `rows.Err()` afterwards). -/
structure EventsFaults where
  queryErr : Bool
  scanErr : Nat → Bool
  cursorErrAt : Option Nat

/-- A fault-free iteration. -/
def noFaults : EventsFaults :=
  { queryErr := false, scanErr := fun _ => false, cursorErrAt := none }

/-- A cursor failure before row `k` (with no other fault). -/
def cursorFaults (k : Nat) : EventsFaults :=
  { queryErr := false, scanErr := fun _ => false, cursorErrAt := some k }

/-- A scan failure on the first row (with no other fault). -/
def scanFirstFaults : EventsFaults :=
  { queryErr := false, scanErr := fun i => i == 0, cursorErrAt := none }

/-- Outcome of a `GetEvents` call: either the iteration ran to completion
(`ok`), or the code panicked (`panicked`); in both cases the list holds the
messages delivered to the callback, in delivery order, before returning or
panicking. -/
inductive EventsOutcome (M : Type) where
  | ok (delivered : List M)
  | panicked (delivered : List M)
deriving DecidableEq

/-- The `for rows.Next()` loop of `GetEvents`, at absolute row position `i`:
a cursor error stops the loop silently (`rows.Err()` is never checked, so the
function returns normally); a scan error leaves the zero values `""` and `[]`
in the destinations (its error is discarded), which are then fed to
`extractData`; a decode error panics; otherwise the decoded message is
delivered to the callback and iteration continues. -/
def getEventsLoop {M : Type} (codec : Codec M) (faults : EventsFaults)
    (actorName : String) : List EventRow → Nat → EventsOutcome M
  | [], _ => EventsOutcome.ok []
  | row :: rest, i =>
    if faults.cursorErrAt = some i then EventsOutcome.ok []
    else
      match extractData codec actorName
          (if faults.scanErr i then "" else row.event_type)
          (if faults.scanErr i then [] else row.event) with
      | Except.error _ => EventsOutcome.panicked []
      | Except.ok m =>
        match getEventsLoop codec faults actorName rest (i + 1) with
        | EventsOutcome.ok ms => EventsOutcome.ok (m :: ms)
        | EventsOutcome.panicked ms => EventsOutcome.panicked (m :: ms)

/-- Embedding of `GetEvents(actorName, eventIndexStart, callback)`: a failing
initial query panics immediately; otherwise the matching rows are iterated in
ascending `event_index` order by `getEventsLoop`. -/
def GetEvents {M : Type} (codec : Codec M) (faults : EventsFaults) (db : DB)
    (actorName : String) (eventIndexStart : Int) : EventsOutcome M :=
  if faults.queryErr then EventsOutcome.panicked []
  else getEventsLoop codec faults actorName (selectEvents db actorName eventIndexStart) 0

/-- Decoding one event row, as `GetEvents` does for a cleanly scanned row;
`none` exactly when `extractData` errors (the case in which the Go code
panics). -/
def decodeRow {M : Type} (codec : Codec M) (actorName : String) (r : EventRow) :
    Option M :=
  (extractData codec actorName r.event_type r.event).toOption

/-- At most one snapshot row per actor: the stored actor names are pairwise
distinct. -/
def snapshotsUniquePerActor (db : DB) : Prop :=
  (db.snapshots.map SnapshotRow.actor_name).Nodup

/-- Results of the environment effects `NewSqlProvider` performs:
`os.MkdirAll` on the sqlite file's directory, `sql.Open`, `Ping`, and one
`Exec` per DDL statement of `tables`.  A `false` models the corresponding
call returning a non-nil error. -/
structure SqlEnv where
  mkdirOk : Bool
  openOk : Bool
  pingOk : Bool
  execOk : String → Bool

/-- The constructed `SqlProvider` value: the snapshot interval stored in the
struct, the connection-pool settings applied to the handle
(`SetMaxIdleConns 256` always; `SetMaxOpenConns 1` for sqlite3, otherwise no
open-connection limit), and the DDL statements successfully executed. -/
structure SqlProvider where
  snapshotInterval : Int
  maxIdleConns : Nat
  maxOpenConns : Option Nat
  tablesCreated : List String
deriving DecidableEq

/-- The `for _, v := range tables { Exec(v) }` loop: stops with an error at
the first failing statement. -/
def execTables (env : SqlEnv) : List String → Except String Unit
  | [] => Except.ok ()
  | t :: rest =>
    if env.execOk t then execTables env rest
    else Except.error ("Failed to create database table " ++ t)

/-- Embedding of `NewSqlProvider(url, snapshotInterval)`: reject any scheme
other than `mysql` or `sqlite3`; for sqlite3 create the containing directory;
open, ping, apply pool settings, create both tables; any failure returns an
error and no provider. -/
def NewSqlProvider (scheme : String) (env : SqlEnv) (snapshotInterval : Int) :
    Except String SqlProvider :=
  if !(scheme == "mysql" || scheme == "sqlite3") then
    Except.error ("Invalid db driver " ++ scheme)
  else if scheme == "sqlite3" && !env.mkdirOk then
    Except.error "MkdirAll failed"
  else if !env.openOk then
    Except.error "could not open db"
  else if !env.pingOk then
    Except.error "could not ping db"
  else
    match execTables env tables with
    | Except.error e => Except.error e
    | Except.ok _ =>
      Except.ok
        { snapshotInterval := snapshotInterval
          maxIdleConns := 256
          maxOpenConns := if scheme == "sqlite3" then some 1 else none
          tablesCreated := tables }

/-- Embedding of `GetSnapshotInterval()`. -/
def GetSnapshotInterval (provider : SqlProvider) : Int :=
  provider.snapshotInterval

/-- True exactly on the error case of an `Except`. -/
def isErr {ε α : Type} : Except ε α → Bool
  | Except.error _ => true
  | Except.ok _ => false

/-- Digits-only string body to a number, as `strconv.Atoi` reads it:
at least one digit, nothing else. -/
def digitsToNat? (cs : List Char) : Option Nat :=
  match cs with
  | [] => none
  | _ =>
    if cs.all Char.isDigit then
      some (cs.foldl (fun acc c => acc * 10 + (c.toNat - 48)) 0)
    else none

/-- Embedding of `strconv.Atoi`: an optional sign followed by one or more
digits; anything else fails. -/
def atoi (s : String) : Option Int :=
  match s.toList with
  | [] => none
  | c :: rest =>
    if c = '+' then (digitsToNat? rest).map (fun n => (n : Int))
    else if c = '-' then (digitsToNat? rest).map (fun n => -(n : Int))
    else (digitsToNat? (c :: rest)).map (fun n => (n : Int))

/-- The provider variant `NewProviderFromEnv` returns: the in-memory provider
(with its interval) or a SQL provider. -/
inductive Provider where
  | inMemory (snapshotInterval : Int)
  | sql (provider : SqlProvider)
deriving DecidableEq

/-- Embedding of `NewProviderFromEnv()`: parse the DB URL (failure is a
config error), parse the snapshot interval with `strconv.Atoi` falling back
to 1000, then dispatch on the scheme: `inmem` builds the in-memory provider,
anything else goes to `NewSqlProvider`. -/
def NewProviderFromEnv (urlParseOk : Bool) (scheme : String) (env : SqlEnv)
    (snapshotIntervalStr : String) : Except String Provider :=
  if !urlParseOk then Except.error "Invalid DB URL"
  else
    let snapshotInterval : Int :=
      match atoi snapshotIntervalStr with
      | some n => n
      | none => 1000
    if scheme == "inmem" then Except.ok (Provider.inMemory snapshotInterval)
    else (NewSqlProvider scheme env snapshotInterval).map Provider.sql

/-- A concrete codec for witnesses: one registered message shape with tag
`test.Msg`, payload a singleton byte list, round-tripping exactly. -/
def testCodec : Codec Nat :=
  { messageName := fun _ => "test.Msg"
    marshal := fun n => [n]
    registered := fun t => t == "test.Msg"
    unmarshal := fun t bs => if t == "test.Msg" then bs.head? else none }

/-- A concrete event row for witnesses. -/
def sampleRow (a : String) (i : Int) (v : Nat) : EventRow :=
  { actor_name := a, event_type := "test.Msg", event_index := i, event := [v] }

/-- A witness database: actor `A` has events at indices 0, 1, 2, 5, 7 and
actor `B` has one event at index 3; no snapshots. -/
def sampleDB : DB :=
  { events := [sampleRow "A" 7 107, sampleRow "A" 0 100, sampleRow "B" 3 203,
               sampleRow "A" 2 102, sampleRow "A" 5 105, sampleRow "A" 1 101]
    snapshots := [] }

/-- An environment in which every effect succeeds. -/
def allOkEnv : SqlEnv :=
  { mkdirOk := true, openOk := true, pingOk := true, execOk := fun _ => true }

theorem decodeRow_isSome_iff {M : Type} (codec : Codec M) (a : String)
    (r : EventRow) :
    (decodeRow codec a r).isSome
      ↔ ∃ m, extractData codec a r.event_type r.event = Except.ok m := by
  unfold decodeRow
  cases hE : extractData codec a r.event_type r.event with
  | ok m => simp [Except.toOption]
  | error e => simp [Except.toOption]

theorem length_filterMap_of_isSome {α β : Type} (f : α → Option β) :
    ∀ l : List α, (∀ x ∈ l, (f x).isSome) →
      (l.filterMap f).length = l.length := by
  intro l
  induction l with
  | nil => intro _; rfl
  | cons x xs ih =>
    intro h
    obtain ⟨y, hy⟩ := Option.isSome_iff_exists.mp (h x (by simp))
    simp [List.filterMap_cons, hy, ih (fun z hz => h z (by simp [hz]))]

theorem getEventsLoop_all_ok {M : Type} (codec : Codec M) (a : String)
    (rows : List EventRow) :
    ∀ i : Nat, (∀ r ∈ rows, (decodeRow codec a r).isSome) →
      getEventsLoop codec noFaults a rows i
        = EventsOutcome.ok (rows.filterMap (decodeRow codec a)) := by
  induction rows with
  | nil => intro i _; rfl
  | cons row rest ih =>
    intro i h
    obtain ⟨m, hm⟩ := (decodeRow_isSome_iff codec a row).mp (h row (by simp))
    have hd : decodeRow codec a row = some m := by
      simp [decodeRow, hm, Except.toOption]
    have hrest : ∀ r ∈ rest, (decodeRow codec a r).isSome :=
      fun r hr => h r (by simp [hr])
    have ihh := ih (i + 1) hrest
    simp only [noFaults] at ihh
    simp [getEventsLoop, noFaults, hm, ihh, List.filterMap_cons, hd]

theorem extractData_error_of_decodeRow_none {M : Type} (codec : Codec M)
    (a : String) (r : EventRow) (hbad : decodeRow codec a r = none) :
    ∃ e, extractData codec a r.event_type r.event = Except.error e := by
  unfold decodeRow at hbad
  cases hE : extractData codec a r.event_type r.event with
  | ok m => rw [hE] at hbad; simp [Except.toOption] at hbad
  | error e => exact ⟨e, rfl⟩

theorem getEventsLoop_panics_at_first_bad {M : Type} (codec : Codec M)
    (a : String) (bad : EventRow) (rest : List EventRow)
    (hbad : decodeRow codec a bad = none) :
    ∀ (good : List EventRow) (i : Nat),
      (∀ r ∈ good, (decodeRow codec a r).isSome) →
      getEventsLoop codec noFaults a (good ++ bad :: rest) i
        = EventsOutcome.panicked (good.filterMap (decodeRow codec a)) := by
  intro good
  induction good with
  | nil =>
    intro i _
    obtain ⟨e, he⟩ := extractData_error_of_decodeRow_none codec a bad hbad
    simp [getEventsLoop, noFaults, he]
  | cons g rest' ih =>
    intro i h
    obtain ⟨m, hm⟩ := (decodeRow_isSome_iff codec a g).mp (h g (by simp))
    have hd : decodeRow codec a g = some m := by
      simp [decodeRow, hm, Except.toOption]
    have ihh := ih (i + 1) (fun r hr => h r (by simp [hr]))
    simp only [noFaults] at ihh
    simp [getEventsLoop, noFaults, hm, ihh, List.filterMap_cons, hd,
      List.cons_append]

theorem getEventsLoop_cursor_stops {M : Type} (codec : Codec M) (a : String)
    (k : Nat) :
    ∀ (rows : List EventRow) (i : Nat),
      (∀ r ∈ rows, (decodeRow codec a r).isSome) → i ≤ k →
      getEventsLoop codec (cursorFaults k) a rows i
        = EventsOutcome.ok ((rows.take (k - i)).filterMap (decodeRow codec a)) := by
  intro rows
  induction rows with
  | nil => intro i _ _; simp [getEventsLoop]
  | cons row rest ih =>
    intro i h hik
    by_cases hk : i = k
    · subst hk
      simp [getEventsLoop, cursorFaults, Nat.sub_self]
    · have hlt : i < k := lt_of_le_of_ne hik hk
      have hcond : ¬ (some k = some i) := by
        intro hc
        exact hk (Option.some.inj hc).symm
      obtain ⟨m, hm⟩ := (decodeRow_isSome_iff codec a row).mp (h row (by simp))
      have hd : decodeRow codec a row = some m := by
        simp [decodeRow, hm, Except.toOption]
      have ihh := ih (i + 1) (fun r hr => h r (by simp [hr])) hlt
      simp only [cursorFaults] at ihh
      have htake : k - i = (k - (i + 1)) + 1 := by omega
      simp [getEventsLoop, cursorFaults, hcond, hm, ihh, htake,
        List.filterMap_cons, hd]

theorem persistSnapshot_filter {M : Type} (codec : Codec M) (db : DB)
    (a : String) (i : Int) (m : M) :
    (PersistSnapshot codec db a i m).snapshots.filter (fun r => r.actor_name == a)
      = [{ actor_name := a, snapshot_type := codec.messageName m,
           event_index := i, snapshot := codec.marshal m }] := by
  simp [PersistSnapshot, insertOrReplace, snapshotsConflict,
    List.filter_append, List.filter_filter]

theorem persistSnapshot_unique {M : Type} (codec : Codec M) (db : DB)
    (a : String) (i : Int) (m : M) (h : snapshotsUniquePerActor db) :
    snapshotsUniquePerActor (PersistSnapshot codec db a i m) := by
  unfold snapshotsUniquePerActor at h
  unfold snapshotsUniquePerActor PersistSnapshot insertOrReplace
  simp only [List.map_append, List.map_cons, List.map_nil]
  rw [List.nodup_append]
  refine ⟨h.sublist ((List.filter_sublist db.snapshots).map SnapshotRow.actor_name),
    List.nodup_singleton _, ?_⟩
  intro x hx hx2
  simp only [List.mem_singleton] at hx2
  subst hx2
  simp only [List.mem_map, List.mem_filter, snapshotsConflict] at hx
  obtain ⟨y, ⟨_, hq⟩, hfy⟩ := hx
  simp [hfy] at hq

theorem execTables_error_of_exists (env : SqlEnv) :
    ∀ l : List String, (∃ t ∈ l, env.execOk t = false) →
      ∃ e, execTables env l = Except.error e := by
  intro l
  induction l with
  | nil => rintro ⟨t, ht, _⟩; cases ht
  | cons t rest ih =>
    rintro ⟨u, hu, hfail⟩
    unfold execTables
    by_cases hx : env.execOk t
    · rw [if_pos hx]
      apply ih
      rcases List.mem_cons.mp hu with h1 | h2
      · rw [h1] at hfail; rw [hx] at hfail; cases hfail
      · exact ⟨u, h2, hfail⟩
    · rw [if_neg hx]; exact ⟨_, rfl⟩

theorem execTables_ok_forall (env : SqlEnv) :
    ∀ l : List String, execTables env l = Except.ok () →
      ∀ t ∈ l, env.execOk t = true := by
  intro l
  induction l with
  | nil => intro _ t ht; cases ht
  | cons u rest ih =>
    intro hok t ht
    unfold execTables at hok
    by_cases hx : env.execOk u
    · rw [if_pos hx] at hok
      rcases List.mem_cons.mp ht with h1 | h2
      · rw [h1]; exact hx
      · exact ih hok t h2
    · rw [if_neg hx] at hok; cases hok

theorem newSqlProvider_ok_shape (scheme : String) (env : SqlEnv)
    (interval : Int) (p : SqlProvider)
    (hok : NewSqlProvider scheme env interval = Except.ok p) :
    p = { snapshotInterval := interval, maxIdleConns := 256,
          maxOpenConns := if scheme == "sqlite3" then some 1 else none,
          tablesCreated := tables } := by
  unfold NewSqlProvider at hok
  split at hok
  · cases hok
  · split at hok
    · cases hok
    · split at hok
      · cases hok
      · split at hok
        · cases hok
        · split at hok
          · cases hok
          · exact (Except.ok.inj hok).symm

theorem newSqlProvider_ok_env (scheme : String) (env : SqlEnv) (interval : Int)
    (p : SqlProvider) (hok : NewSqlProvider scheme env interval = Except.ok p) :
    env.openOk = true ∧ env.pingOk = true ∧ (∀ t ∈ tables, env.execOk t = true) := by
  unfold NewSqlProvider at hok
  split at hok
  · cases hok
  · split at hok
    · cases hok
    · split at hok
      · cases hok
      · split at hok
        · cases hok
        · split at hok
          · cases hok
          · rename_i hmkc hopenc hpingc hscrut hval heq
            cases hval
            refine ⟨?_, ?_, execTables_ok_forall env tables heq⟩
            · simp at hopenc; exact hopenc
            · simp at hpingc; exact hpingc

/-- C1: calling `PersistEvent` twice with the same `actor_name` and
`event_index` is claimed to leave exactly one row (upsert).  On the code it
leaves two: the `events` DDL has no PRIMARY KEY or UNIQUE constraint, so
SQLite's `INSERT OR REPLACE` never finds a conflicting row and inserts a
second one.  Concretely, persisting payload 10 and then payload 20 at
`("A", 3)` leaves both rows in the table. -/
theorem persistEvent_same_index_leaves_two_rows :
    ((PersistEvent testCodec (PersistEvent testCodec emptyDB "A" 3 10) "A" 3 20).events.filter
        (fun r => r.actor_name == "A" && r.event_index == 3)).length = 2
    ∧ (PersistEvent testCodec (PersistEvent testCodec emptyDB "A" 3 10) "A" 3 20).events
        = [sampleRow "A" 3 10, sampleRow "A" 3 20] := by
  constructor
  · rfl
  · rfl

/-- C2: `GetEvents(actor, start, callback)` on a fault-free run delivers to
the callback exactly the decodings of the stored rows whose `actor_name`
matches and whose `event_index` is at least `start` (a permutation of the
matching rows of the table, so rows of other actors never appear and every
matching row appears), ordered ascending by `event_index`, one callback per
matching row. -/
theorem getEvents_delivers_matching_in_order {M : Type} (codec : Codec M)
    (db : DB) (a : String) (start : Int)
    (hdec : ∀ r ∈ selectEvents db a start, (decodeRow codec a r).isSome) :
    GetEvents codec noFaults db a start
        = EventsOutcome.ok ((selectEvents db a start).filterMap (decodeRow codec a))
      ∧ (selectEvents db a start).Perm (db.events.filter (matchesQuery a start))
      ∧ List.Sorted (fun x y => x ≤ y) ((selectEvents db a start).map EventRow.event_index)
      ∧ ((selectEvents db a start).filterMap (decodeRow codec a)).length
          = (db.events.filter (matchesQuery a start)).length := by
  refine ⟨?_, ?_, ?_, ?_⟩
  · have hloop := getEventsLoop_all_ok codec a (selectEvents db a start) 0 hdec
    simp only [noFaults] at hloop
    simp [GetEvents, noFaults, hloop]
  · simp only [selectEvents]
    exact List.perm_insertionSort rowLe _
  · have hs := List.sorted_insertionSort rowLe (db.events.filter (matchesQuery a start))
    simp only [selectEvents]
    exact List.pairwise_map.mpr hs
  · rw [length_filterMap_of_isSome _ _ hdec]
    simp only [selectEvents]
    exact (List.perm_insertionSort rowLe _).length_eq

/-- Witness for C2 on the spec's example: actor `A` has events at indices
0, 1, 2, 5, 7 (and actor `B` one at 3); reading from index 2 delivers
exactly the events at 2, 5, 7 in that order. -/
theorem getEvents_delivers_matching_in_order_witness :
    GetEvents testCodec noFaults sampleDB "A" 2
        = EventsOutcome.ok ((selectEvents sampleDB "A" 2).filterMap (decodeRow testCodec "A"))
      ∧ (selectEvents sampleDB "A" 2).Perm (sampleDB.events.filter (matchesQuery "A" 2))
      ∧ List.Sorted (fun x y => x ≤ y) ((selectEvents sampleDB "A" 2).map EventRow.event_index)
      ∧ ((selectEvents sampleDB "A" 2).filterMap (decodeRow testCodec "A")).length
          = (sampleDB.events.filter (matchesQuery "A" 2)).length :=
  getEvents_delivers_matching_in_order testCodec sampleDB "A" 2 (by decide)

/-- C3: `PersistSnapshot` replaces the actor's previous snapshot row
(`snapshots` is keyed by `actor_name`): after a persist there is exactly one
row for that actor, per-actor uniqueness is preserved, and `GetSnapshot`
returns the most recently written snapshot and its index (given that the
codec round-trips the message). -/
theorem persistSnapshot_single_row_and_latest {M : Type} (codec : Codec M)
    (db : DB) (a : String) (i : Int) (m : M)
    (hreg : codec.registered (codec.messageName m) = true)
    (hrt : codec.unmarshal (codec.messageName m) (codec.marshal m) = some m) :
    ((PersistSnapshot codec db a i m).snapshots.filter (fun r => r.actor_name == a)).length = 1
    ∧ (snapshotsUniquePerActor db → snapshotsUniquePerActor (PersistSnapshot codec db a i m))
    ∧ GetSnapshot codec SnapFault.noFault (PersistSnapshot codec db a i m) a
        = (some m, i, true) := by
  refine ⟨?_, fun h => persistSnapshot_unique codec db a i m h, ?_⟩
  · rw [persistSnapshot_filter]; rfl
  · simp [GetSnapshot, persistSnapshot_filter, extractData, hreg, hrt]

/-- Witness for C3: starting from a database already holding a snapshot for
`A` at index 1 with payload 50, persisting a snapshot at index 2 with
payload 60 leaves one row and `GetSnapshot` returns the new one. -/
theorem persistSnapshot_single_row_and_latest_witness :
    ((PersistSnapshot testCodec (PersistSnapshot testCodec emptyDB "A" 1 50) "A" 2 60).snapshots.filter
        (fun r => r.actor_name == "A")).length = 1
    ∧ (snapshotsUniquePerActor (PersistSnapshot testCodec emptyDB "A" 1 50) →
        snapshotsUniquePerActor (PersistSnapshot testCodec (PersistSnapshot testCodec emptyDB "A" 1 50) "A" 2 60))
    ∧ GetSnapshot testCodec SnapFault.noFault
        (PersistSnapshot testCodec (PersistSnapshot testCodec emptyDB "A" 1 50) "A" 2 60) "A"
        = (some 60, 2, true) :=
  persistSnapshot_single_row_and_latest testCodec
    (PersistSnapshot testCodec emptyDB "A" 1 50) "A" 2 60 (by decide) (by decide)

theorem getSnapshot_decode_fail_absent {M : Type} (codec : Codec M) (db : DB)
    (a : String) (row : SnapshotRow)
    (hrow : (db.snapshots.filter (fun r => r.actor_name == a)).head? = some row)
    (hdec : (extractData codec a row.snapshot_type row.snapshot).toOption = none) :
    GetSnapshot codec SnapFault.noFault db a = (none, -1, false) := by
  obtain ⟨e, he⟩ :
      ∃ e, extractData codec a row.snapshot_type row.snapshot = Except.error e := by
    cases hE : extractData codec a row.snapshot_type row.snapshot with
    | ok m => rw [hE] at hdec; simp [Except.toOption] at hdec
    | error e => exact ⟨e, rfl⟩
  simp [GetSnapshot, hrow, he]

theorem getSnapshot_no_row_absent {M : Type} (codec : Codec M) (db : DB)
    (a : String)
    (hrow : (db.snapshots.filter (fun r => r.actor_name == a)).head? = none) :
    GetSnapshot codec SnapFault.noFault db a = (none, -1, false) := by
  simp [GetSnapshot, hrow]

/-- C4: decode failure is asymmetric between the two read paths.  In
`GetSnapshot` it is non-fatal: when the actor's stored row fails to decode,
the result is `(none, -1, false)` — the very value returned when the actor
has no snapshot row at all.  In `GetEvents` it is fatal: when a row of the
selected stream fails to decode, the whole replay panics, delivering only
the rows before the bad one and never skipping it to continue. -/
theorem decode_failure_asymmetry {M : Type} (codec : Codec M) :
    (∀ (db : DB) (a : String) (row : SnapshotRow),
        (db.snapshots.filter (fun r => r.actor_name == a)).head? = some row →
        (extractData codec a row.snapshot_type row.snapshot).toOption = none →
        GetSnapshot codec SnapFault.noFault db a = (none, -1, false))
    ∧ (∀ (db : DB) (a : String),
        (db.snapshots.filter (fun r => r.actor_name == a)).head? = none →
        GetSnapshot codec SnapFault.noFault db a = (none, -1, false))
    ∧ (∀ (db : DB) (a : String) (start : Int) (good : List EventRow)
          (bad : EventRow) (rest : List EventRow),
        selectEvents db a start = good ++ bad :: rest →
        (∀ r ∈ good, (decodeRow codec a r).isSome) →
        decodeRow codec a bad = none →
        GetEvents codec noFaults db a start
          = EventsOutcome.panicked (good.filterMap (decodeRow codec a))) := by
  refine ⟨fun db a row hrow hdec => getSnapshot_decode_fail_absent codec db a row hrow hdec,
    fun db a hrow => getSnapshot_no_row_absent codec db a hrow, ?_⟩
  · intro db a start good bad rest hsel hgood hbad
    have hloop := getEventsLoop_panics_at_first_bad codec a bad rest hbad good 0 hgood
    simp only [noFaults] at hloop
    simp [GetEvents, noFaults, hsel, hloop]

/-- Witness for C4: a snapshot row for `A` with unregistered type tag
`bad.Type` yields the same `(none, -1, false)` as an empty snapshot table,
while an event stream for `A` holding a decodable event at index 0 and an
undecodable one at index 1 panics after delivering only the first. -/
theorem decode_failure_asymmetry_witness :
    GetSnapshot testCodec SnapFault.noFault
        { events := [],
          snapshots := [{ actor_name := "A", snapshot_type := "bad.Type",
                          event_index := 4, snapshot := [9] }] } "A"
        = (none, -1, false)
    ∧ GetSnapshot testCodec SnapFault.noFault emptyDB "A" = (none, -1, false)
    ∧ GetEvents testCodec noFaults
        { events := [sampleRow "A" 0 100,
                     { actor_name := "A", event_type := "bad.Type",
                       event_index := 1, event := [7] }],
          snapshots := [] } "A" 0
        = EventsOutcome.panicked ([sampleRow "A" 0 100].filterMap (decodeRow testCodec "A")) :=
  ⟨(decode_failure_asymmetry testCodec).1
      { events := [],
        snapshots := [{ actor_name := "A", snapshot_type := "bad.Type",
                        event_index := 4, snapshot := [9] }] } "A"
      { actor_name := "A", snapshot_type := "bad.Type", event_index := 4, snapshot := [9] }
      (by decide) (by decide),
   (decode_failure_asymmetry testCodec).2.1 emptyDB "A" (by decide),
   (decode_failure_asymmetry testCodec).2.2
      { events := [sampleRow "A" 0 100,
                   { actor_name := "A", event_type := "bad.Type",
                     event_index := 1, event := [7] }],
        snapshots := [] } "A" 0 [sampleRow "A" 0 100]
      { actor_name := "A", event_type := "bad.Type", event_index := 1, event := [7] } []
      (by decide) (by decide) (by decide)⟩

/-- C5: provider construction is all-or-nothing.  An unrecognized scheme
yields a configuration error and no provider; for the durable variant any
failure at directory creation (sqlite3), open, ping, or table creation
yields an error and no provider; and a successful construction implies open
and ping succeeded and both DDL statements of `tables` executed. -/
theorem newSqlProvider_all_or_nothing (scheme : String) (env : SqlEnv)
    (interval : Int) :
    ((scheme ≠ "mysql" ∧ scheme ≠ "sqlite3") →
        isErr (NewSqlProvider scheme env interval) = true)
    ∧ (((scheme = "sqlite3" ∧ env.mkdirOk = false) ∨ env.openOk = false ∨
          env.pingOk = false ∨ (∃ t ∈ tables, env.execOk t = false)) →
        isErr (NewSqlProvider scheme env interval) = true)
    ∧ (∀ p, NewSqlProvider scheme env interval = Except.ok p →
        p.tablesCreated = tables ∧ (∀ t ∈ tables, env.execOk t = true)
          ∧ env.openOk = true ∧ env.pingOk = true) := by
  refine ⟨?_, ?_, ?_⟩
  · rintro ⟨h1, h2⟩
    have hc : (scheme == "mysql" || scheme == "sqlite3") = false := by
      simp [h1, h2]
    simp [NewSqlProvider, hc, isErr]
  · rintro (⟨hs, hm⟩ | ho | hp | ⟨t, ht, hf⟩)
    · subst hs
      simp [NewSqlProvider, isErr, hm]
    · unfold NewSqlProvider
      split
      · rfl
      split
      · rfl
      rw [if_pos (by simp [ho])]
      rfl
    · unfold NewSqlProvider
      split
      · rfl
      split
      · rfl
      split
      · rfl
      rw [if_pos (by simp [hp])]
      rfl
    · obtain ⟨e, he⟩ := execTables_error_of_exists env tables ⟨t, ht, hf⟩
      unfold NewSqlProvider
      split
      · rfl
      split
      · rfl
      split
      · rfl
      split
      · rfl
      rw [he]
      rfl
  · intro p hok
    obtain ⟨hopen, hping, hexec⟩ := newSqlProvider_ok_env scheme env interval p hok
    have hshape := newSqlProvider_ok_shape scheme env interval p hok
    exact ⟨by rw [hshape], hexec, hopen, hping⟩

/-- Witness for C5: the scheme `postgres` is rejected; a failing ping under
`sqlite3` is rejected; and a fully successful `sqlite3` construction creates
both tables. -/
theorem newSqlProvider_all_or_nothing_witness :
    isErr (NewSqlProvider "postgres" allOkEnv 1000) = true
    ∧ isErr (NewSqlProvider "sqlite3"
        { mkdirOk := true, openOk := true, pingOk := false, execOk := fun _ => true } 1000) = true
    ∧ ((NewSqlProvider "sqlite3" allOkEnv 1000).map SqlProvider.tablesCreated
        = Except.ok tables) :=
  ⟨(newSqlProvider_all_or_nothing "postgres" allOkEnv 1000).1 (by decide),
   (newSqlProvider_all_or_nothing "sqlite3"
      { mkdirOk := true, openOk := true, pingOk := false, execOk := fun _ => true } 1000).2.1
      (Or.inr (Or.inr (Or.inl rfl))),
   by
     have h := (newSqlProvider_all_or_nothing "sqlite3" allOkEnv 1000).2.2
       { snapshotInterval := 1000, maxIdleConns := 256, maxOpenConns := some 1,
         tablesCreated := tables } (by rfl)
     rw [show NewSqlProvider "sqlite3" allOkEnv 1000
         = Except.ok { snapshotInterval := 1000, maxIdleConns := 256,
                       maxOpenConns := some 1, tablesCreated := tables } from rfl]
     rw [Except.map, h.1]⟩

/-- C6: an actor that has never had a snapshot persisted gets the explicit
absent result `(none, -1, false)` from `GetSnapshot`, not an error. -/
theorem getSnapshot_absent_when_never_snapshotted {M : Type} (codec : Codec M)
    (db : DB) (a : String)
    (h : ∀ r ∈ db.snapshots, r.actor_name ≠ a) :
    GetSnapshot codec SnapFault.noFault db a = (none, -1, false) := by
  have hfil : db.snapshots.filter (fun r => r.actor_name == a) = [] := by
    rw [List.filter_eq_nil_iff]
    intro r hr
    simp [h r hr]
  simp [GetSnapshot, hfil]

/-- Witness for C6: with only actor `B` snapshotted, `GetSnapshot` for `A`
returns the absent triple. -/
theorem getSnapshot_absent_when_never_snapshotted_witness :
    GetSnapshot testCodec SnapFault.noFault
        { events := [],
          snapshots := [{ actor_name := "B", snapshot_type := "test.Msg",
                          event_index := 3, snapshot := [5] }] } "A"
        = (none, -1, false) :=
  getSnapshot_absent_when_never_snapshotted testCodec
    { events := [],
      snapshots := [{ actor_name := "B", snapshot_type := "test.Msg",
                      event_index := 3, snapshot := [5] }] } "A" (by decide)

/-- C7: a provider constructed for the `sqlite3` scheme always has its handle
pinned to exactly one open connection (`SetMaxOpenConns 1`), for every
environment and interval — there is no tunable; a provider constructed for
the `mysql` scheme instead has no open-connection cap and a bounded idle
pool of 256. -/
theorem sqlite_pinned_to_single_connection (env : SqlEnv) (interval : Int) :
    (∀ p, NewSqlProvider "sqlite3" env interval = Except.ok p →
        p.maxOpenConns = some 1 ∧ p.maxIdleConns = 256)
    ∧ (∀ p, NewSqlProvider "mysql" env interval = Except.ok p →
        p.maxOpenConns = none ∧ p.maxIdleConns = 256) := by
  constructor
  · intro p hok
    rw [newSqlProvider_ok_shape "sqlite3" env interval p hok]
    constructor
    · rfl
    · rfl
  · intro p hok
    rw [newSqlProvider_ok_shape "mysql" env interval p hok]
    constructor
    · rfl
    · rfl

/-- Witness for C7: concrete successful constructions for both schemes. -/
theorem sqlite_pinned_to_single_connection_witness :
    ({ snapshotInterval := 17, maxIdleConns := 256, maxOpenConns := some 1,
       tablesCreated := tables } : SqlProvider).maxOpenConns = some 1
    ∧ ({ snapshotInterval := 17, maxIdleConns := 256, maxOpenConns := none,
         tablesCreated := tables } : SqlProvider).maxOpenConns = none :=
  ⟨((sqlite_pinned_to_single_connection allOkEnv 17).1
      { snapshotInterval := 17, maxIdleConns := 256, maxOpenConns := some 1,
        tablesCreated := tables } (by rfl)).1,
   ((sqlite_pinned_to_single_connection allOkEnv 17).2
      { snapshotInterval := 17, maxIdleConns := 256, maxOpenConns := none,
        tablesCreated := tables } (by rfl)).1⟩

/-- C8: when the configured snapshot-interval string does not parse as an
integer (`strconv.Atoi` fails), the provider is constructed with interval
1000, on both the in-memory and the SQL path; and every constructed SQL
provider reports through `GetSnapshotInterval` exactly the interval it was
constructed with. -/
theorem snapshot_interval_default_and_reported (s : String) (scheme : String)
    (env : SqlEnv) :
    (atoi s = none →
        (scheme = "inmem" →
            NewProviderFromEnv true scheme env s = Except.ok (Provider.inMemory 1000))
        ∧ (∀ p, NewProviderFromEnv true scheme env s = Except.ok (Provider.sql p) →
            p.snapshotInterval = 1000))
    ∧ (∀ (interval : Int) (p : SqlProvider),
        NewSqlProvider scheme env interval = Except.ok p →
        GetSnapshotInterval p = interval) := by
  constructor
  · intro hnone
    constructor
    · intro hs
      subst hs
      simp [NewProviderFromEnv, hnone]
    · intro p hp
      simp [NewProviderFromEnv, hnone] at hp
      split at hp
      · simp at hp
      · cases hN : NewSqlProvider scheme env 1000 with
        | error e => rw [hN] at hp; simp [Except.map] at hp
        | ok q =>
          rw [hN] at hp
          simp only [Except.map] at hp
          have hqp : Provider.sql q = Provider.sql p := Except.ok.inj hp
          have hq : q = p := by injection hqp
          rw [← hq, newSqlProvider_ok_shape scheme env 1000 q hN]
  · intro interval p hok
    rw [GetSnapshotInterval, newSqlProvider_ok_shape scheme env interval p hok]

/-- Witness for C8: the unparsable interval string `abc` yields a sqlite3
provider with interval 1000; a provider constructed with interval 17
reports 17. -/
theorem snapshot_interval_default_and_reported_witness :
    ({ snapshotInterval := 1000, maxIdleConns := 256, maxOpenConns := some 1,
       tablesCreated := tables } : SqlProvider).snapshotInterval = 1000
    ∧ GetSnapshotInterval ({ snapshotInterval := 17, maxIdleConns := 256,
                             maxOpenConns := some 1,
                             tablesCreated := tables } : SqlProvider) = 17 :=
  ⟨((snapshot_interval_default_and_reported "abc" "sqlite3" allOkEnv).1 (by decide)).2
      { snapshotInterval := 1000, maxIdleConns := 256, maxOpenConns := some 1,
        tablesCreated := tables } (by rfl),
   (snapshot_interval_default_and_reported "abc" "sqlite3" allOkEnv).2 17
      { snapshotInterval := 17, maxIdleConns := 256, maxOpenConns := some 1,
        tablesCreated := tables } (by rfl)⟩

/-- C9: every failure mode inside `GetSnapshot` — a database query error
(`row.Err()`), a row-scan error, or a decode error on the stored row —
returns the same `(none, -1, false)` as the genuine no-snapshot case, and
`GetSnapshot` never surfaces an error: every call returns either the absent
triple or a decoded snapshot with `true`. -/
theorem getSnapshot_failures_indistinguishable {M : Type} (codec : Codec M)
    (db : DB) (a : String) :
    GetSnapshot codec SnapFault.queryErr db a = (none, -1, false)
    ∧ GetSnapshot codec SnapFault.scanErr db a = (none, -1, false)
    ∧ (∀ row, (db.snapshots.filter (fun r => r.actor_name == a)).head? = some row →
        (extractData codec a row.snapshot_type row.snapshot).toOption = none →
        GetSnapshot codec SnapFault.noFault db a = (none, -1, false))
    ∧ (∀ fault, GetSnapshot codec fault db a = (none, -1, false)
        ∨ ∃ (m : M) (i : Int), GetSnapshot codec fault db a = (some m, i, true)) := by
  refine ⟨by simp [GetSnapshot], ?_,
    fun row hrow hdec => getSnapshot_decode_fail_absent codec db a row hrow hdec, ?_⟩
  · unfold GetSnapshot
    split
    · rfl
    · split
      · rfl
      · rw [if_pos rfl]
  · intro fault
    unfold GetSnapshot
    split
    · exact Or.inl rfl
    · split
      · exact Or.inl rfl
      · split
        · exact Or.inl rfl
        · split
          · exact Or.inl rfl
          · exact Or.inr ⟨_, _, rfl⟩

/-- Witness for C9: on a database whose only snapshot row for `A` has the
unregistered type tag `bad.Type`, the query-error, scan-error and
decode-error paths all return the absent triple. -/
theorem getSnapshot_failures_indistinguishable_witness :
    GetSnapshot testCodec SnapFault.queryErr
        { events := [],
          snapshots := [{ actor_name := "A", snapshot_type := "bad.Type",
                          event_index := 4, snapshot := [9] }] } "A"
        = (none, -1, false)
    ∧ GetSnapshot testCodec SnapFault.scanErr
        { events := [],
          snapshots := [{ actor_name := "A", snapshot_type := "bad.Type",
                          event_index := 4, snapshot := [9] }] } "A"
        = (none, -1, false)
    ∧ GetSnapshot testCodec SnapFault.noFault
        { events := [],
          snapshots := [{ actor_name := "A", snapshot_type := "bad.Type",
                          event_index := 4, snapshot := [9] }] } "A"
        = (none, -1, false) :=
  ⟨(getSnapshot_failures_indistinguishable testCodec
      { events := [],
        snapshots := [{ actor_name := "A", snapshot_type := "bad.Type",
                        event_index := 4, snapshot := [9] }] } "A").1,
   (getSnapshot_failures_indistinguishable testCodec
      { events := [],
        snapshots := [{ actor_name := "A", snapshot_type := "bad.Type",
                        event_index := 4, snapshot := [9] }] } "A").2.1,
   (getSnapshot_failures_indistinguishable testCodec
      { events := [],
        snapshots := [{ actor_name := "A", snapshot_type := "bad.Type",
                        event_index := 4, snapshot := [9] }] } "A").2.2.1
      { actor_name := "A", snapshot_type := "bad.Type", event_index := 4, snapshot := [9] }
      (by decide) (by decide)⟩

/-- C10: `GetEvents` discards the per-row `rows.Scan` error and never checks
the cursor's terminal error.  First conjunct: a scan failure on a row feeds
the zero values (empty type tag, empty payload) into decoding — since the
empty tag is not registered, the replay panics on the zero values instead of
reporting a scan failure.  Second conjunct: a cursor failure before row `k`
of the selected stream makes `GetEvents` return normally (`ok`) after
delivering only the first `k` matching events — a silent truncation, with
strictly fewer deliveries than matching rows. -/
theorem getEvents_swallows_scan_and_cursor_failures {M : Type} (codec : Codec M) :
    (∀ (db : DB) (a : String) (start : Int) (row : EventRow) (rest : List EventRow),
        selectEvents db a start = row :: rest →
        codec.registered "" = false →
        GetEvents codec scanFirstFaults db a start = EventsOutcome.panicked [])
    ∧ (∀ (db : DB) (a : String) (start : Int) (k : Nat),
        (∀ r ∈ selectEvents db a start, (decodeRow codec a r).isSome) →
        k < (selectEvents db a start).length →
        GetEvents codec (cursorFaults k) db a start
          = EventsOutcome.ok (((selectEvents db a start).take k).filterMap (decodeRow codec a))
        ∧ (((selectEvents db a start).take k).filterMap (decodeRow codec a)).length
            < (selectEvents db a start).length) := by
  constructor
  · intro db a start row rest hsel hreg
    have hext : extractData codec a "" ([] : List Nat)
        = Except.error ("Unsupported protocol type " ++ "") := by
      simp [extractData, hreg]
    simp [GetEvents, scanFirstFaults, hsel, getEventsLoop, hext]
  · intro db a start k hdec hk
    have hloop := getEventsLoop_cursor_stops codec a k (selectEvents db a start) 0
        hdec (Nat.zero_le k)
    simp only [cursorFaults] at hloop
    constructor
    · simp only [Nat.sub_zero] at hloop
      simp [GetEvents, cursorFaults, hloop]
    · have hlen : ((selectEvents db a start).take k).length = k := by
        rw [List.length_take]
        omega
      rw [length_filterMap_of_isSome, hlen]
      · exact hk
      · intro x hx
        exact hdec x (List.take_subset _ _ hx)

/-- Witness for C10 on `sampleDB`: with a scan failure on the first row the
replay of actor `A` from index 2 panics with nothing delivered; with a
cursor failure before row 1 it returns normally having delivered only the
event at index 2, silently dropping those at 5 and 7. -/
theorem getEvents_swallows_scan_and_cursor_failures_witness :
    GetEvents testCodec scanFirstFaults sampleDB "A" 2 = EventsOutcome.panicked []
    ∧ (GetEvents testCodec (cursorFaults 1) sampleDB "A" 2
        = EventsOutcome.ok (((selectEvents sampleDB "A" 2).take 1).filterMap (decodeRow testCodec "A"))
      ∧ (((selectEvents sampleDB "A" 2).take 1).filterMap (decodeRow testCodec "A")).length
          < (selectEvents sampleDB "A" 2).length) :=
  ⟨(getEvents_swallows_scan_and_cursor_failures testCodec).1 sampleDB "A" 2
      (sampleRow "A" 2 102) [sampleRow "A" 5 105, sampleRow "A" 7 107]
      (by decide) (by decide),
   (getEvents_swallows_scan_and_cursor_failures testCodec).2 sampleDB "A" 2 1
      (by decide) (by decide)⟩

